import Mathlib

/-!
Shallow embedding of the DEEPISL client-side recognition pipeline
(`MediaPipeManager`, the full-featured variant in the repository: the class
defining `validateSequence`, debug counters and the `slice(-10)` retain-tail
flush), together with the configuration constants of `config.js`.

Numbers flowing through the pipeline are JavaScript numbers; no arithmetic is
ever performed on landmark coordinates (they are only copied and tested with
`isNaN` / `isFinite`), so they are modelled as an inductive type of finite
rationals plus the three non-finite values.  JavaScript values reaching
`validateSequence` may be arbitrary, so a small JS-value type models the
inputs relevant to its checks; an `Except` result models a thrown `TypeError`.
-/

namespace DeepISL

/-! ## Configuration constants (`src/js/config.js` and in-code literals) -/

/-- `CONFIG.N_FRAMES` in `config.js`. -/
def N_FRAMES : Nat := 30

/-- `CONFIG.PREDICTION_THROTTLE_MS` in `config.js`. -/
def PREDICTION_THROTTLE_MS : Int := 400

/-- `CONFIG.POSE_INDICES` in `config.js`. -/
def POSE_INDICES : List Nat := [11, 12, 13, 14, 15, 16]

/-- The retain count: the literal in `this.keypointSequence.slice(-10)`. -/
def RETAIN : Nat := 10

/-- The per-frame vector length literal `144` in `validateSequence`. -/
def FRAME_DIM : Nat := 144

/-! ## JavaScript numbers -/

/-- A JavaScript number: a finite value (modelled as a rational) or one of
the non-finite values `NaN`, `Infinity`, `-Infinity`. -/
inductive JSNum where
  | fin (q : ℚ)
  | nan
  | inf
  | ninf
deriving DecidableEq

/-- `Number.isNaN` on an actual number. -/
def JSNum.isNaN : JSNum → Bool
  | .nan => true
  | _ => false

/-- `Number.isFinite` on an actual number. -/
def JSNum.isFinite : JSNum → Bool
  | .fin _ => true
  | _ => false

/-! ## JavaScript values (the fragment `validateSequence` can observe) -/

/-- A JavaScript value as observed by `validateSequence`: a number, a
boolean, `null`, `undefined`, or an array of values. -/
inductive JSValue where
  | num (x : JSNum)
  | bool (b : Bool)
  | null
  | undef
  | arr (xs : List JSValue)

/-- JavaScript `ToNumber` coercion, as performed by the global `isNaN` and
`isFinite`.  `null` coerces to `0`, `undefined` to `NaN`, booleans to `1`/`0`.
Arrays coerce through `ToString`: `[]` gives `0` (empty string), a singleton
coerces via its element's string form (`[undefined]` stringifies to the empty
string hence `0`, `[true]`/`[false]` stringify to words hence `NaN`), and an
array of two or more elements contains a comma hence `NaN`. -/
def jsToNumber : JSValue → JSNum
  | .num x => x
  | .bool b => .fin (if b then 1 else 0)
  | .null => .fin 0
  | .undef => .nan
  | .arr [] => .fin 0
  | .arr [.undef] => .fin 0
  | .arr [.bool _] => .nan
  | .arr [v] => jsToNumber v
  | .arr (_ :: _ :: _) => .nan

/-- The global (coercing) `isNaN`. -/
def jsIsNaN (v : JSValue) : Bool := (jsToNumber v).isNaN

/-- The global (coercing) `isFinite`. -/
def jsIsFinite (v : JSValue) : Bool := (jsToNumber v).isFinite

/-! ## `MediaPipeManager.validateSequence`

The per-frame loop of `validateSequence`.  For each frame the code runs
`if (!Array.isArray(frame) || frame.length !== 144)` and, in that branch,
logs a template literal that reads `frame.length`; reading `.length` of
`null` or `undefined` throws a `TypeError`, modelled as `.error ()`.  For any
other non-array frame the property read yields `undefined` and the branch
returns `false`.  A well-shaped frame is then scanned with
`frame.some(val => isNaN(val) || !isFinite(val))`. -/
def validateFrames : List JSValue → Except Unit Bool
  | [] => .ok true
  | frame :: rest =>
    match frame with
    | .arr vals =>
      if vals.length ≠ FRAME_DIM then .ok false
      else if vals.any (fun v => jsIsNaN v || !(jsIsFinite v)) then .ok false
      else validateFrames rest
    | .null => .error ()
    | .undef => .error ()
    | _ => .ok false

/-- `MediaPipeManager.validateSequence`: rejects a non-array, then a wrong
outer length, then delegates to the per-frame loop.  `.ok b` models a normal
`return b`; `.error ()` models a thrown `TypeError`. -/
def validateSequence : JSValue → Except Unit Bool
  | .arr frames =>
    if frames.length ≠ N_FRAMES then .ok false
    else validateFrames frames
  | _ => .ok false

/-! ## Detection results and `extractKeypoints` -/

/-- One landmark object produced by the detector: `{x, y, z}`. -/
structure Landmark where
  x : JSNum
  y : JSNum
  z : JSNum
deriving DecidableEq

/-- A Holistic detection result restricted to the fields `extractKeypoints`
reads: each landmark set is independently absent (`undefined`) or a list. -/
structure Results where
  leftHandLandmarks : Option (List Landmark)
  rightHandLandmarks : Option (List Landmark)
  poseLandmarks : Option (List Landmark)
deriving DecidableEq

/-- The `this.landmarksDetected` debug-counter record. -/
structure LandmarksDetected where
  leftHand : Nat
  rightHand : Nat
  pose : Nat
deriving DecidableEq

/-- The inner closure `extractLandmarks(landmarks, count, handName)`:
absent or empty landmark list gives `count * 3` zeros; otherwise the list is
flattened with `flatMap(landmark => [x, y, z])` and the counter for that hand
is set to `landmarks.length` (returned as the first component). -/
def extractLandmarks (landmarks : Option (List Landmark)) (count : Nat) :
    Nat × List JSNum :=
  match landmarks with
  | none => (0, List.replicate (count * 3) (.fin 0))
  | some l =>
    if l.length = 0 then (0, List.replicate (count * 3) (.fin 0))
    else (l.length, l.flatMap (fun lm => [lm.x, lm.y, lm.z]))

/-- `results.poseLandmarks && results.poseLandmarks[index]`: the landmark at
`index`, when the pose list is present and long enough. -/
def landmarkAt (pose : Option (List Landmark)) (idx : Nat) : Option Landmark :=
  match pose with
  | none => none
  | some pl => pl[idx]?

/-- The `POSE_INDICES.forEach` loop building `poseCoords`: each of the six
fixed indices contributes its landmark's `x, y, z`, or three zeros when the
pose list is absent or does not reach that index. -/
def poseCoordsOf (pose : Option (List Landmark)) : List JSNum :=
  POSE_INDICES.flatMap (fun idx =>
    match landmarkAt pose idx with
    | some lm => [lm.x, lm.y, lm.z]
    | none => [.fin 0, .fin 0, .fin 0])

/-- The `this.landmarksDetected.pose++` count accumulated by the same loop. -/
def poseCountOf (pose : Option (List Landmark)) : Nat :=
  POSE_INDICES.countP (fun idx => (landmarkAt pose idx).isSome)

/-- `MediaPipeManager.extractKeypoints` with its effect on the
`landmarksDetected` counters made explicit: the method first resets all three
counters to `0`, then the pose loop and the two `extractLandmarks` calls
write them, so the incoming counter state is entirely overwritten.  Returns
the new counters and `[...leftHandCoords, ...rightHandCoords, ...poseCoords]`. -/
def extractKeypointsSt (st : LandmarksDetected) (results : Results) :
    LandmarksDetected × List JSNum :=
  let _ := st
  let poseCoords := poseCoordsOf results.poseLandmarks
  let left := extractLandmarks results.leftHandLandmarks 21
  let right := extractLandmarks results.rightHandLandmarks 21
  (⟨left.1, right.1, poseCountOf results.poseLandmarks⟩,
    left.2 ++ right.2 ++ poseCoords)

/-- The feature vector returned by `extractKeypoints`. -/
def extractKeypoints (results : Results) : List JSNum :=
  (extractKeypointsSt ⟨0, 0, 0⟩ results).2

/-! ## Manager state and the `onResults` / capture-lifecycle step functions

The mutable fields of `MediaPipeManager` that the pipeline reads or writes
(video, canvas and the callback slots are external collaborators and carry no
pipeline state).  `lastPredictionTime` holds `Date.now()` values. -/

structure PipeState where
  capturing : Bool
  frameCounter : Nat
  keypointSequence : List (List JSNum)
  lastPredictionTime : Int
  framesProcessed : Nat
  predictionsAttempted : Nat
  landmarksDetected : LandmarksDetected
deriving DecidableEq

/-- The constructor's field initialisation: `capturing = false`, counters `0`,
`keypointSequence = []`, `lastPredictionTime = 0`. -/
def initState : PipeState :=
  { capturing := false
    frameCounter := 0
    keypointSequence := []
    lastPredictionTime := 0
    framesProcessed := 0
    predictionsAttempted := 0
    landmarksDetected := ⟨0, 0, 0⟩ }

/-- `MediaPipeManager.onResults(results)` with `now = Date.now()` passed in.
Drawing on the canvas and console logging are external effects and omitted.
The method: increments `framesProcessed`, extracts keypoints (updating the
debug counters), pushes them onto `keypointSequence`, and then — with no
check of `this.capturing` anywhere — tests
`keypointSequence.length >= N_FRAMES && now - lastPredictionTime >
PREDICTION_THROTTLE_MS`; on success it increments `predictionsAttempted`,
records `now` in `lastPredictionTime`, snapshots the whole sequence, replaces
the buffer by `keypointSequence.slice(-10)` and hands the snapshot to the
`onPredictionReady` callback (modelled as the `Option` output; the dispatch
is unconditional, `validateSequence` is not called on this path). -/
def onResults (st : PipeState) (results : Results) (now : Int) :
    PipeState × Option (List (List JSNum)) :=
  let st1 := { st with framesProcessed := st.framesProcessed + 1 }
  let ext := extractKeypointsSt st1.landmarksDetected results
  let st2 := { st1 with landmarksDetected := ext.1 }
  let seq := st2.keypointSequence ++ [ext.2]
  if N_FRAMES ≤ seq.length ∧ PREDICTION_THROTTLE_MS < now - st2.lastPredictionTime then
    ({ st2 with
        predictionsAttempted := st2.predictionsAttempted + 1
        lastPredictionTime := now
        keypointSequence := seq.drop (seq.length - RETAIN) },
      some seq)
  else
    ({ st2 with keypointSequence := seq }, none)

/-- `MediaPipeManager.startCapture()` as a state transformer.  `camOk` models
whether `getUserMedia` succeeds.  Already capturing: returns `false` without
touching any state.  On camera success it sets `capturing`, clears
`keypointSequence` and zeroes `frameCounter`, `framesProcessed` and
`predictionsAttempted`, then resolves `true` once the stream plays.  On
camera failure nothing was mutated and it returns `false`. -/
def startCapture (st : PipeState) (camOk : Bool) : PipeState × Bool :=
  if st.capturing then (st, false)
  else if camOk then
    ({ st with
        capturing := true
        keypointSequence := []
        frameCounter := 0
        framesProcessed := 0
        predictionsAttempted := 0 },
      true)
  else (st, false)

/-- `MediaPipeManager.stopCapture()`: when capturing, sets `capturing` to
`false` (track release and canvas clearing are external effects).  The
`keypointSequence` buffer is not touched. -/
def stopCapture (st : PipeState) : PipeState :=
  if st.capturing then { st with capturing := false } else st

/-! ## Event traces

A trace of detection-callback deliveries: each event is a `Date.now()`
reading paired with the delivered detection result. -/

/-- Final state after a list of `onResults` deliveries. -/
def runState (st : PipeState) : List (Int × Results) → PipeState
  | [] => st
  | (now, r) :: rest => runState (onResults st r now).1 rest

/-- The sequences handed to the `onPredictionReady` callback along a trace,
in order. -/
def dispatches (st : PipeState) : List (Int × Results) → List (List (List JSNum))
  | [] => []
  | (now, r) :: rest =>
    match (onResults st r now).2 with
    | some s => s :: dispatches (onResults st r now).1 rest
    | none => dispatches (onResults st r now).1 rest

/-- The `Date.now()` readings at which the gate fired along a trace. -/
def fireTimes (st : PipeState) : List (Int × Results) → List Int
  | [] => []
  | (now, r) :: rest =>
    match (onResults st r now).2 with
    | some _ => now :: fireTimes (onResults st r now).1 rest
    | none => fireTimes (onResults st r now).1 rest

/-- A detection result with every landmark set absent. -/
def emptyResults : Results := ⟨none, none, none⟩

/-! ## Encodings and concrete inputs used in the statements below -/

/-- A feature vector as the JS value `validateSequence` receives. -/
def encodeFrame (f : List JSNum) : JSValue := .arr (f.map .num)

/-- A sequence of feature vectors as the JS value `validateSequence`
receives. -/
def encodeSeq (s : List (List JSNum)) : JSValue := .arr (s.map encodeFrame)

/-- `true` on the hand fields whose present landmark list has the nominal
21 entries or is empty (the two shapes for which the flattened hand region
has length 63). -/
def handLenOk (o : Option (List Landmark)) : Bool :=
  match o with
  | none => true
  | some l => l.length == 21 || l.length == 0

/-- `true` on `null` and `undefined`. -/
def nullishFrame : JSValue → Bool
  | .null => true
  | .undef => true
  | _ => false

/-- `true` exactly when the value is an array of outer length `N_FRAMES`
containing a `null` or `undefined` frame — the shape on which the
rejection-logging line of `validateSequence` dereferences `frame.length`. -/
def hasNullishFrame : JSValue → Bool
  | .arr frames => frames.length == N_FRAMES && frames.any nullishFrame
  | _ => false

/-- A detection result whose left-hand list has a single landmark. -/
def resultsOneLeft : Results :=
  ⟨some [⟨.fin 0, .fin 0, .fin 0⟩], none, none⟩

/-- A state whose window already holds 29 frames (its frame contents are
irrelevant to the buffering logic). -/
def st29 : PipeState := { initState with keypointSequence := List.replicate 29 [] }

/-- A capturing state whose window holds 12 frames. -/
def st12 : PipeState :=
  { initState with capturing := true, keypointSequence := List.replicate 12 [] }

/-- 30 detection callbacks all observed at `Date.now() = 1000`, each with a
one-landmark left hand. -/
def c3Events : List (Int × Results) := List.replicate 30 (1000, resultsOneLeft)

/-- 30 callbacks at `t = 1000` (the gate fires on the 30th) followed by 21
callbacks at `t = 1100`, all within the 400 ms throttle window. -/
def c6Events : List (Int × Results) :=
  List.replicate 30 ((1000 : Int), emptyResults) ++
    List.replicate 21 ((1100 : Int), emptyResults)

/-! ## Helper lemmas -/

theorem length_flatMap_const {α β : Type} (l : List α) (f : α → List β)
    (h : ∀ a, (f a).length = 3) : (l.flatMap f).length = 3 * l.length := by
  induction l with
  | nil => rfl
  | cons a t ih =>
    simp only [List.flatMap_cons, List.length_append, h a, ih, List.length_cons]
    ring

theorem poseCoordsOf_length (pose : Option (List Landmark)) :
    (poseCoordsOf pose).length = 18 := by
  unfold poseCoordsOf
  rw [length_flatMap_const]
  · rfl
  · intro a; cases landmarkAt pose a <;> rfl

theorem extractLandmarks_some (l : List Landmark) (count : Nat) :
    extractLandmarks (some l) count =
      if l.length = 0 then (0, List.replicate (count * 3) (.fin 0))
      else (l.length, l.flatMap (fun lm => [lm.x, lm.y, lm.z])) := rfl

theorem extractLandmarks_length_of_ok (o : Option (List Landmark))
    (h : handLenOk o = true) : (extractLandmarks o 21).2.length = 63 := by
  match o with
  | none => simp [extractLandmarks]
  | some l =>
    simp only [handLenOk, Bool.or_eq_true, beq_iff_eq] at h
    rw [extractLandmarks_some]
    rcases h with h | h
    · rw [if_neg (by omega)]
      simp only []
      rw [length_flatMap_const l (fun lm => [lm.x, lm.y, lm.z]) (fun a => rfl), h]
    · simp [h]

theorem extractKeypointsSt_snd (st : LandmarksDetected) (r : Results) :
    (extractKeypointsSt st r).2 = extractKeypoints r := rfl

/-! ## Claim C1 -/

/-- Claim C1, counterexample: a detection result whose left-hand landmark
list holds a single landmark yields a feature vector of length
3 + 63 + 18 = 84, not 144 — a present hand region with fewer than 21
landmarks is flattened positionally with no per-index zero-filling. -/
theorem extractKeypoints_oneLeft_length_ne_144 :
    (extractKeypoints resultsOneLeft).length = 84 ∧
      (extractKeypoints resultsOneLeft).length ≠ 144 := by decide

/-- Claim C1, amended: for every detection result whose present hand landmark
lists each have exactly 21 landmarks or are empty, the keypoint-extraction
function returns a vector of length exactly 144 (absent, empty or
short-of-an-index regions are zero-filled), and being a total function it
never throws. -/
theorem extractKeypoints_length_144 (r : Results)
    (hl : handLenOk r.leftHandLandmarks = true)
    (hr : handLenOk r.rightHandLandmarks = true) :
    (extractKeypoints r).length = 144 := by
  unfold extractKeypoints extractKeypointsSt
  simp only [List.length_append, extractLandmarks_length_of_ok _ hl,
    extractLandmarks_length_of_ok _ hr, poseCoordsOf_length]

/-- Claim C1 amended, witness: a result with all regions absent satisfies the
hand-shape hypotheses and yields a 144-length vector. -/
theorem extractKeypoints_length_144_witness :
    (extractKeypoints emptyResults).length = 144 :=
  extractKeypoints_length_144 emptyResults (by decide) (by decide)

/-! ## Claim C9 -/

/-- Claim C9, counterexample: `extractKeypoints` is not free of side effects
on the manager state — a call with an all-absent detection result overwrites
the `landmarksDetected` debug counters (here resetting `⟨5, 5, 5⟩` to
`⟨0, 0, 0⟩`). -/
theorem extractKeypointsSt_mutates_counters :
    (extractKeypointsSt ⟨5, 5, 5⟩ emptyResults).1 ≠ ⟨5, 5, 5⟩ := by decide

/-- Claim C9, amended: `extractKeypoints` does mutate the manager's
`landmarksDetected` debug counters, but both the returned feature vector and
the counters it writes are a pure function of the detection result alone —
the incoming counter state never influences the outcome, and two calls on
equal detection results return equal vectors. -/
theorem extractKeypointsSt_deterministic (st st' : LandmarksDetected)
    (r : Results) : extractKeypointsSt st r = extractKeypointsSt st' r := rfl

/-! ## Claim C10 -/

/-- Claim C10, counterexample: on a length-30 array of `null` frames the
validator does not return a boolean — the `Array.isArray` guard fails and
the rejection-logging template literal reads `frame.length` on `null`,
throwing a `TypeError` (modelled as `.error ()`). -/
theorem validateSequence_throws_on_null_frames :
    validateSequence (.arr (List.replicate N_FRAMES JSValue.null)) = .error () := by
  rfl

theorem validateFrames_cons_arr (vals t : List JSValue) :
    validateFrames (.arr vals :: t) =
      if vals.length ≠ FRAME_DIM then .ok false
      else if vals.any (fun v => jsIsNaN v || !(jsIsFinite v)) then .ok false
      else validateFrames t := rfl

theorem validateSequence_arr (frames : List JSValue) :
    validateSequence (.arr frames) =
      if frames.length ≠ N_FRAMES then .ok false
      else validateFrames frames := rfl

theorem validateFrames_ok_of_no_nullish (frames : List JSValue)
    (h : ∀ f ∈ frames, nullishFrame f = false) :
    ∃ b, validateFrames frames = .ok b := by
  induction frames with
  | nil => exact ⟨true, rfl⟩
  | cons f t ih =>
    match f with
    | .arr vals =>
      rw [validateFrames_cons_arr]
      split
      · exact ⟨false, rfl⟩
      · split
        · exact ⟨false, rfl⟩
        · exact ih (fun g hg => h g (List.mem_cons_of_mem _ hg))
    | .null => exact absurd (h .null (List.mem_cons_self _ _)) (by decide)
    | .undef => exact absurd (h .undef (List.mem_cons_self _ _)) (by decide)
    | .num x => exact ⟨false, rfl⟩
    | .bool b => exact ⟨false, rfl⟩

/-- Claim C10, amended: the sequence validator returns a boolean and never
throws for every input value except a length-30 array containing a `null` or
`undefined` frame (where building the rejection log message throws a
`TypeError`); in particular it is total on every non-array, on arrays of any
other length, and on arrays whose frames are all non-nullish. -/
theorem validateSequence_total_of_no_nullish (v : JSValue)
    (h : hasNullishFrame v = false) : ∃ b, validateSequence v = .ok b := by
  match v with
  | .num x => exact ⟨false, rfl⟩
  | .bool b => exact ⟨false, rfl⟩
  | .null => exact ⟨false, rfl⟩
  | .undef => exact ⟨false, rfl⟩
  | .arr frames =>
    rw [validateSequence_arr]
    by_cases hlen : frames.length = N_FRAMES
    · rw [if_neg (by omega)]
      apply validateFrames_ok_of_no_nullish
      intro f hf
      cases hnf : nullishFrame f with
      | false => rfl
      | true =>
        have hany : frames.any nullishFrame = true :=
          List.any_eq_true.mpr ⟨f, hf, hnf⟩
        simp [hasNullishFrame, hlen, hany] at h
    · rw [if_pos (by omega)]
      exact ⟨false, rfl⟩

/-- Claim C10 amended, witness: the validator returns a boolean on the plain
number `NaN` (a non-array input). -/
theorem validateSequence_total_witness :
    ∃ b, validateSequence (.num .nan) = .ok b :=
  validateSequence_total_of_no_nullish (.num .nan) (by decide)

/-! ## Claim C7 -/

/-- Claim C7: `onResults` never consults `this.capturing`, so a detection
callback delivered after `stopCapture()` is not discarded.  From a capturing
state holding 12 frames: after `stopCapture()` the manager is no longer
capturing, yet a stale callback still appends a 13th frame to the stopped
session's window; and after a subsequent `startCapture()` (which resets the
window to length 0) a stale callback appends a frame into the new session's
window — cross-session leakage. -/
theorem stale_callback_mutates_window :
    (stopCapture st12).capturing = false ∧
      (onResults (stopCapture st12) emptyResults 2000).1.keypointSequence.length = 13 ∧
      (startCapture (stopCapture st12) true).1.keypointSequence.length = 0 ∧
      (onResults (startCapture (stopCapture st12) true).1
          emptyResults 2000).1.keypointSequence.length = 1 := by
  decide

/-! ## Claim C8 -/

/-- Claim C8, counterexample: `stopCapture()` does not empty the Window —
from a capturing state holding 12 frames, the buffer still holds all 12
frames immediately after `stopCapture()`. -/
theorem stopCapture_keeps_frames :
    st12.capturing = true ∧ (stopCapture st12).keypointSequence.length = 12 := by
  decide

/-- Claim C8, amended: the Window is reset to empty on re-entry into capture,
not at stop: `stopCapture()` leaves the buffer untouched, but every
successful `startCapture()` from a non-capturing state begins with an empty
Window and a zero frame counter, so the partial window abandoned by `stop()`
is discarded before the new session accumulates frames. -/
theorem start_resets_window (st : PipeState) (h : st.capturing = false) :
    (stopCapture st).keypointSequence = st.keypointSequence ∧
      (startCapture st true).1.keypointSequence = [] ∧
      (startCapture st true).1.frameCounter = 0 ∧
      (startCapture st true).2 = true := by
  simp [startCapture, stopCapture, h]

/-- Claim C8 amended, witness: applied to the stopped 12-frame state. -/
theorem start_resets_window_witness :
    (stopCapture (stopCapture st12)).keypointSequence =
        (stopCapture st12).keypointSequence ∧
      (startCapture (stopCapture st12) true).1.keypointSequence = [] ∧
      (startCapture (stopCapture st12) true).1.frameCounter = 0 ∧
      (startCapture (stopCapture st12) true).2 = true :=
  start_resets_window (stopCapture st12) (by decide)

/-! ## Claim C6 -/

set_option maxRecDepth 8000 in
/-- Claim C6, counterexample: a reachable state whose buffer holds more than
`N_FRAMES` vectors.  Starting from the initial state, 30 callbacks at
`t = 1000` fire the gate once (leaving the 10-frame retained tail), and 21
further callbacks at `t = 1100` — all within the 400 ms throttle window —
grow the buffer to 31 frames with no flush. -/
theorem buffer_exceeds_N_FRAMES :
    (runState initState c6Events).keypointSequence.length = 31 ∧
      N_FRAMES < (runState initState c6Events).keypointSequence.length := by
  decide

/-- Claim C6, amended: the buffer length can exceed `N_FRAMES` (by one frame
per callback, without bound) while the throttle suppresses the gate; the
invariant that does hold is that after any callback processed once the
throttle interval has elapsed since the last dispatch, the buffer length is
at most `N_FRAMES` (at most `RETAIN` when the gate fired). -/
theorem buffer_bounded_when_throttle_expired (st : PipeState) (r : Results)
    (now : Int) (h : PREDICTION_THROTTLE_MS < now - st.lastPredictionTime) :
    (onResults st r now).1.keypointSequence.length ≤ N_FRAMES := by
  unfold onResults
  dsimp only
  split
  · simp only [List.length_drop]
    have : RETAIN ≤ N_FRAMES := by decide
    omega
  · rename_i hcond
    push_neg at hcond
    by_contra hgt
    push_neg at hgt
    exact absurd (hcond hgt.le) (not_le.mpr h)

/-- Claim C6 amended, witness: a first callback at `t = 1000` (throttle long
expired relative to `lastPredictionTime = 0`) leaves the buffer within the
bound. -/
theorem buffer_bounded_witness :
    (onResults initState emptyResults 1000).1.keypointSequence.length ≤ N_FRAMES :=
  buffer_bounded_when_throttle_expired initState emptyResults 1000 (by decide)

/-! ## `onResults` shape lemmas -/

theorem onResults_def (st : PipeState) (r : Results) (now : Int) :
    onResults st r now =
      if N_FRAMES ≤ (st.keypointSequence ++ [extractKeypoints r]).length ∧
          PREDICTION_THROTTLE_MS < now - st.lastPredictionTime then
        ({ st with
            framesProcessed := st.framesProcessed + 1
            landmarksDetected := (extractKeypointsSt st.landmarksDetected r).1
            predictionsAttempted := st.predictionsAttempted + 1
            lastPredictionTime := now
            keypointSequence := (st.keypointSequence ++ [extractKeypoints r]).drop
              ((st.keypointSequence ++ [extractKeypoints r]).length - RETAIN) },
          some (st.keypointSequence ++ [extractKeypoints r]))
      else
        ({ st with
            framesProcessed := st.framesProcessed + 1
            landmarksDetected := (extractKeypointsSt st.landmarksDetected r).1
            keypointSequence := st.keypointSequence ++ [extractKeypoints r] },
          none) := rfl

theorem onResults_fires_iff (st : PipeState) (r : Results) (now : Int) :
    ((onResults st r now).2).isSome = true ↔
      (N_FRAMES ≤ st.keypointSequence.length + 1 ∧
        PREDICTION_THROTTLE_MS < now - st.lastPredictionTime) := by
  rw [onResults_def]
  split
  · rename_i hc
    simp only [List.length_append, List.length_singleton] at hc
    simpa using hc
  · rename_i hc
    simp only [List.length_append, List.length_singleton] at hc
    simpa using hc

theorem onResults_last_of_fire (st : PipeState) (r : Results) (now : Int)
    (h : ((onResults st r now).2).isSome = true) :
    (onResults st r now).1.lastPredictionTime = now := by
  rw [onResults_def] at h ⊢
  split at h
  · rename_i hc
    rw [if_pos hc]
  · simp at h

theorem onResults_last_of_no_fire (st : PipeState) (r : Results) (now : Int)
    (h : (onResults st r now).2 = none) :
    (onResults st r now).1.lastPredictionTime = st.lastPredictionTime := by
  rw [onResults_def] at h ⊢
  split at h
  · simp at h
  · rename_i hc
    rw [if_neg hc]

theorem onResults_fire_gt (st : PipeState) (r : Results) (now : Int)
    (h : ((onResults st r now).2).isSome = true) :
    st.lastPredictionTime + PREDICTION_THROTTLE_MS < now := by
  have := ((onResults_fires_iff st r now).mp h).2
  omega

theorem fireTimes_cons (st : PipeState) (now : Int) (r : Results)
    (rest : List (Int × Results)) :
    fireTimes st ((now, r) :: rest) =
      match (onResults st r now).2 with
      | some _ => now :: fireTimes (onResults st r now).1 rest
      | none => fireTimes (onResults st r now).1 rest := rfl

theorem fireTimes_gt (evs : List (Int × Results)) :
    ∀ (st : PipeState), ∀ t ∈ fireTimes st evs,
      st.lastPredictionTime + PREDICTION_THROTTLE_MS < t := by
  induction evs with
  | nil => intro st t ht; simp [fireTimes] at ht
  | cons e rest ih =>
    intro st t ht
    obtain ⟨now, r⟩ := e
    rw [fireTimes_cons] at ht
    cases ho : (onResults st r now).2 with
    | some s =>
      have hsome : ((onResults st r now).2).isSome = true := by rw [ho]; rfl
      have hlast := onResults_last_of_fire st r now hsome
      have hgt := onResults_fire_gt st r now hsome
      rw [ho] at ht
      change t ∈ now :: fireTimes (onResults st r now).1 rest at ht
      rcases List.mem_cons.mp ht with rfl | ht
      · exact hgt
      · have h1 := ih (onResults st r now).1 t ht
        rw [hlast] at h1
        have hpos : (0 : Int) < PREDICTION_THROTTLE_MS := by decide
        omega
    | none =>
      rw [ho] at ht
      change t ∈ fireTimes (onResults st r now).1 rest at ht
      have h1 := ih (onResults st r now).1 t ht
      rw [onResults_last_of_no_fire st r now ho] at h1
      exact h1

theorem fireTimes_pairwise (evs : List (Int × Results)) :
    ∀ (st : PipeState), (fireTimes st evs).Pairwise
      (fun a b => a + PREDICTION_THROTTLE_MS < b) := by
  induction evs with
  | nil => intro st; simp [fireTimes]
  | cons e rest ih =>
    intro st
    obtain ⟨now, r⟩ := e
    rw [fireTimes_cons]
    cases ho : (onResults st r now).2 with
    | some s =>
      show List.Pairwise (fun a b => a + PREDICTION_THROTTLE_MS < b)
        (now :: fireTimes (onResults st r now).1 rest)
      refine List.Pairwise.cons (fun t ht => ?_) (ih _)
      have h1 := fireTimes_gt rest (onResults st r now).1 t ht
      rw [onResults_last_of_fire st r now (by rw [ho]; rfl)] at h1
      exact h1
    | none =>
      show List.Pairwise (fun a b => a + PREDICTION_THROTTLE_MS < b)
        (fireTimes (onResults st r now).1 rest)
      exact ih _

/-! ## Claim C2 -/

/-- Claim C2: the prediction gate fires iff the post-append buffer length is
at least `N_FRAMES` (30) and strictly more than `PREDICTION_THROTTLE_MS`
(400 ms) has elapsed since the recorded last-dispatch timestamp; it never
fires when the buffer length is below 30; and along every trace of
callbacks, any two fire times are strictly more than 400 ms apart — at most
one fire in any 400 ms window (no clock assumption needed, because the gate
records `now` as `lastPredictionTime` at the moment it fires). -/
theorem prediction_gate_characterization :
    (∀ (st : PipeState) (r : Results) (now : Int),
        ((onResults st r now).2).isSome = true ↔
          (N_FRAMES ≤ st.keypointSequence.length + 1 ∧
            PREDICTION_THROTTLE_MS < now - st.lastPredictionTime)) ∧
      (∀ (st : PipeState) (r : Results) (now : Int),
        st.keypointSequence.length + 1 < N_FRAMES → (onResults st r now).2 = none) ∧
      (∀ (st : PipeState) (evs : List (Int × Results)),
        (fireTimes st evs).Pairwise (fun a b => a + PREDICTION_THROTTLE_MS < b)) := by
  refine ⟨fun st r now => onResults_fires_iff st r now,
    fun st r now hlt => ?_,
    fun st evs => fireTimes_pairwise evs st⟩
  cases ho : (onResults st r now).2 with
  | none => rfl
  | some s =>
    have := ((onResults_fires_iff st r now).mp (by rw [ho]; rfl)).1
    omega

/-- Claim C2, witness: from the initial state a first callback never fires
(buffer below 30 frames). -/
theorem prediction_gate_characterization_witness :
    (onResults initState emptyResults 1000).2 = none :=
  prediction_gate_characterization.2.1 initState emptyResults 1000 (by decide)

/-! ## Claim C4 -/

/-- Claim C4: on every flush (the gate fired), the dispatched snapshot is the
whole pre-flush buffer, its length exceeds `RETAIN` (10), and the buffer
immediately after the flush is exactly the final `RETAIN` elements of the
pre-flush buffer in order — length exactly 10, not zero and not the
pre-flush length. -/
theorem flush_retains_tail (st : PipeState) (r : Results) (now : Int)
    (seq : List (List JSNum)) (h : (onResults st r now).2 = some seq) :
    seq = st.keypointSequence ++ [extractKeypoints r] ∧
      RETAIN < seq.length ∧
      (onResults st r now).1.keypointSequence = seq.drop (seq.length - RETAIN) ∧
      (onResults st r now).1.keypointSequence.length = RETAIN := by
  rw [onResults_def] at h ⊢
  split at h
  · rename_i hc
    simp only [Option.some.injEq] at h
    subst h
    have h30 : N_FRAMES = 30 := rfl
    have h10 : RETAIN = 10 := rfl
    have hlen := hc.1
    refine ⟨rfl, by omega, ?_, ?_⟩
    · rw [if_pos hc]
    · rw [if_pos hc]
      simp only [List.length_drop]
      omega
  · simp at h

set_option maxRecDepth 8000 in
/-- Claim C4, witness: a 30th frame arriving at `t = 1000` with the throttle
expired fires the gate and leaves exactly the 10-frame tail. -/
theorem flush_retains_tail_witness :
    (onResults st29 emptyResults 1000).1.keypointSequence.length = RETAIN :=
  (flush_retains_tail st29 emptyResults 1000
    (st29.keypointSequence ++ [extractKeypoints emptyResults]) (by decide)).2.2.2

/-! ## Claim C5 -/

theorem any_map_comp {α β : Type} (l : List α) (g : α → β) (p : β → Bool) :
    (l.map g).any p = l.any (fun a => p (g a)) := by
  induction l with
  | nil => rfl
  | cons a t ih => simp [List.any_cons, ih]

theorem any_not_eq_not_all {α : Type} (l : List α) (p : α → Bool) :
    l.any (fun a => !(p a)) = !(l.all p) := by
  induction l with
  | nil => rfl
  | cons a t ih => simp [List.any_cons, List.all_cons, ih, Bool.not_and]

theorem nonfinite_check (x : JSNum) :
    (jsIsNaN (.num x) || !(jsIsFinite (.num x))) = !x.isFinite := by
  cases x <;> rfl

theorem validateFrames_num_eval (seq : List (List JSNum)) :
    validateFrames (seq.map encodeFrame) =
      .ok (seq.all (fun f => f.length == FRAME_DIM && f.all JSNum.isFinite)) := by
  induction seq with
  | nil => rfl
  | cons f t ih =>
    show validateFrames (encodeFrame f :: t.map encodeFrame) = _
    rw [show encodeFrame f = .arr (f.map .num) from rfl, validateFrames_cons_arr]
    by_cases hlen : f.length = FRAME_DIM
    · rw [if_neg (by simp [hlen])]
      have hany : (f.map JSValue.num).any (fun v => jsIsNaN v || !(jsIsFinite v)) =
          !(f.all JSNum.isFinite) := by
        rw [any_map_comp]
        show f.any (fun x => jsIsNaN (.num x) || !(jsIsFinite (.num x))) = _
        simp only [nonfinite_check]
        exact any_not_eq_not_all f JSNum.isFinite
      rw [hany]
      simp only [List.all_cons, beq_iff_eq, hlen]
      by_cases hf : f.all JSNum.isFinite = true
      · rw [if_neg (by simp [hf])]
        simp [hf, ih]
      · have hf' : f.all JSNum.isFinite = false := by
          cases hcase : f.all JSNum.isFinite
          · rfl
          · exact absurd hcase hf
        rw [if_pos (by simp [hf'])]
        simp [hf']
    · rw [if_pos (by simpa using hlen)]
      simp [List.all_cons, beq_iff_eq, hlen]

theorem validateSequence_num_eval (seq : List (List JSNum)) :
    validateSequence (encodeSeq seq) =
      .ok ((seq.length == N_FRAMES) &&
        seq.all (fun f => f.length == FRAME_DIM && f.all JSNum.isFinite)) := by
  rw [show encodeSeq seq = .arr (seq.map encodeFrame) from rfl, validateSequence_arr]
  by_cases hlen : seq.length = N_FRAMES
  · rw [if_neg (by simp [hlen])]
    rw [validateFrames_num_eval]
    simp [beq_iff_eq, hlen]
  · rw [if_pos (by simpa using hlen)]
    simp [beq_iff_eq, hlen]

/-- Claim C5: on candidates built from feature vectors (sequences of JS
numbers), the validator returns `false` exactly when the outer length is not
30, or some inner vector's length is not 144, or some element is non-finite
(`NaN` or an infinity) — and returns `true` for every other candidate. -/
theorem validateSequence_verdict (seq : List (List JSNum)) :
    (validateSequence (encodeSeq seq) = .ok true ↔
      (seq.length = N_FRAMES ∧
        ∀ f ∈ seq, f.length = FRAME_DIM ∧ ∀ v ∈ f, v.isFinite = true)) ∧
      (validateSequence (encodeSeq seq) = .ok false ↔
        ¬ (seq.length = N_FRAMES ∧
          ∀ f ∈ seq, f.length = FRAME_DIM ∧ ∀ v ∈ f, v.isFinite = true)) := by
  rw [validateSequence_num_eval]
  simp only [Except.ok.injEq]
  constructor
  · simp [List.all_eq_true, Bool.and_eq_true, beq_iff_eq]
  · rw [show (((seq.length == N_FRAMES) &&
        seq.all (fun f => f.length == FRAME_DIM && f.all JSNum.isFinite)) = false) ↔
        ¬ (((seq.length == N_FRAMES) &&
          seq.all (fun f => f.length == FRAME_DIM && f.all JSNum.isFinite)) = true) from by
      cases ((seq.length == N_FRAMES) &&
        seq.all (fun f => f.length == FRAME_DIM && f.all JSNum.isFinite)) <;> simp]
    exact not_congr (by simp [List.all_eq_true, Bool.and_eq_true, beq_iff_eq])

/-! ## Claim C3 -/

set_option maxRecDepth 8000 in
/-- Claim C3: the flushed sequence is not passed through the sequence
validator before dispatch — `validateSequence` is defined but never invoked
on the dispatch path of `onResults`, which hands the snapshot directly to
the `onPredictionReady` callback (and `handleSequenceReady` forwards it
unvalidated to the WebSocket transport).  Concretely: from the initial
state, 30 callbacks whose left-hand list holds a single landmark produce
84-length frames; the gate fires on the 30th and exactly one sequence is
dispatched, and that dispatched sequence is one `validateSequence` rejects
(inner frame length 84 ≠ 144). -/
theorem dispatched_sequence_fails_validation :
    (dispatches initState c3Events).map (fun s => validateSequence (encodeSeq s)) =
      [Except.ok false] := by
  rfl

end DeepISL
